import Mathlib

/-!
Shallow embedding of the manganese DRAM stress tester (Rust) for
verification of its natural-language specification.

Conventions:
* machine integers are `Nat` with explicit `% 2^w` where overflow matters;
* a SIMD vector is a `List Nat` of its bytes (length 32 on the wide-256
  path, 64 on the wide-512 path) or, where the code works on 64/16-bit
  lanes, a `Nat` below `2^64` / `2^16` for one lane (all lanes are splatted
  identically by the kernels in question);
* Rust panics (integer division by zero) are `Except String`;
* `while` loops are translated with an explicit fuel that provably
  dominates the iteration count, so the definitions stay structural and
  executable.
-/

/-- The modulus of `u64` arithmetic, 2^64. -/
def U64MOD : Nat := 18446744073709551616

/-- Model of `u64` left shift (Rust `<<` on `u64`, discarding overflow). -/
def shl64 (x k : Nat) : Nat := (x <<< k) % U64MOD

/-- Model of `u64` logical right shift. -/
def shr64 (x k : Nat) : Nat := x >>> k

/-- Model of `u64` xor. -/
def xor64 (x y : Nat) : Nat := Nat.xor x y

/-- Model of `u64` wrapping addition (`_mm256_add_epi64` / `_mm512_add_epi64` per lane). -/
def add64 (x y : Nat) : Nat := (x + y) % U64MOD

/-- Model of `u64::count_ones`: iterate over the 64 binary digits (fuel-based,
fixed width, which is exactly the hardware popcount semantics). -/
def popcountAux : Nat → Nat → Nat
  | 0, _ => 0
  | fuel+1, n => n % 2 + popcountAux fuel (n / 2)

/-- Model of `count_ones()` on a `u64`. -/
def count_ones64 (n : Nat) : Nat := popcountAux 64 n

/-- Little-endian bits-to-number: bit `i` of the result is `bs[i]`. -/
def bitsToNat (bs : List Bool) : Nat :=
  bs.foldr (fun b acc => (if b then 1 else 0) + 2 * acc) 0

/-! ## Primitive kernels: `load_and_compare` (`get`)

Source: `src/manganese_core/src/tests_avx2.rs` lines 31-41,
`src/src/tests_avx2.rs` lines 31-42, `src/manganese_core/src/tests_avx512.rs`
lines 31-42. A vector is its list of bytes; the memory load is abstracted
by passing the loaded bytes (`actual`) directly. The result is the new
error-counter value together with whether a log line was emitted. -/

/-- Model of `_mm256_cmpeq_epi8 expected actual`: per byte, `0xFF` where equal,
`0x00` where different. -/
def mm256_cmpeq_epi8 (expected actual : List Nat) : List Nat :=
  List.zipWith (fun e a => if e = a then 0xFF else 0x00) expected actual

/-- Model of `_mm256_testz_si256 a b`: 1 if `a AND b` is all-zero, else 0.
In `get` both arguments are the same compare mask, so the test is
whether every byte of the mask is zero. -/
def mm256_testz_si256 (a b : List Nat) : Nat :=
  if (List.zipWith (fun x y => Nat.land x y) a b).all (fun x => x = 0) then 1 else 0

/-- Wide-256 `get` of `src/manganese_core/src/tests_avx2.rs` (lines 31-41):
load, byte-wise `cmpeq`, `testz` on the equality mask, and increment the
error counter by 1 and log when `testz != 0`.  Returns
`(new error counter, logged?)`. -/
def core_avx2_get (expected actual : List Nat) (errors : Nat) : Nat × Bool :=
  let cmp := mm256_cmpeq_epi8 expected actual
  let result := mm256_testz_si256 cmp cmp
  if result ≠ 0 then (errors + 1, true) else (errors, false)

/-- Wide-256 `get` of the other revision, `src/src/tests_avx2.rs`
(lines 31-42): same compare, but the error branch is `result == 0`, and the
increment is `popcnt(!(result as u64))` where `result : i32` is 0, so the
complement is `u64::MAX` and the increment is 64. -/
def src_avx2_get (expected actual : List Nat) (errors : Nat) : Nat × Bool :=
  let cmp := mm256_cmpeq_epi8 expected actual
  let result := mm256_testz_si256 cmp cmp
  if result = 0 then
    let error_total := count_ones64 (U64MOD - 1 - result)
    (errors + error_total, true)
  else (errors, false)

/-- Model of `_mm512_cmp_epu8_mask` with predicate `_MM_CMPINT_NE`: a 64-bit mask
whose bit `i` is set exactly when byte `i` of the two vectors differs. -/
def mm512_cmp_epu8_mask_ne (expected actual : List Nat) : Nat :=
  bitsToNat (List.zipWith (fun e a => decide (e ≠ a)) expected actual)

/-- Wide-512 `get` of `src/manganese_core/src/tests_avx512.rs`
(lines 31-42): byte-inequality mask; when it is nonzero, add its popcount
to the error counter and log. Returns `(new error counter, logged?)`. -/
def core_avx512_get (expected actual : List Nat) (errors : Nat) : Nat × Bool :=
  let result := mm512_cmp_epu8_mask_ne expected actual
  if result ≠ 0 then
    let error_total := count_ones64 result
    (errors + error_total, true)
  else (errors, false)

/-- The number of byte positions where the two vectors differ. -/
def numDiffBytes (expected actual : List Nat) : Nat :=
  (List.zipWith (fun e a => decide (e ≠ a)) expected actual).count true

/-! ## Sweep primitives

Source: `src/manganese_core/src/tests_avx2.rs` lines 44-114 (W = 32) and
`src/manganese_core/src/tests_avx512.rs` lines 45-115 (W = 64).  The
embedding records the byte offsets each sweep accesses, in the program
order of one worker after another (the rayon workers touch disjoint
chunks; their interleaving does not affect the set of accesses, which is
what the claims are about).  Rust's `size / CPUS` panics when `CPUS = 0`;
a panic is `Except.error`.  The stored/loaded vector value does not
influence the accessed offsets, so it is not threaded through. -/

/-- Rust integer division: panics on a zero divisor. -/
def rustDiv (a b : Nat) : Except String Nat :=
  if b = 0 then Except.error "attempt to divide by zero" else Except.ok (a / b)

/-- Rust `(0..n).step_by(s)` for `s > 0`: the `⌈n/s⌉` multiples of `s`
below `n`. -/
def stepBy (n s : Nat) : List Nat :=
  (List.range ((n + s - 1) / s)).map (fun k => k * s)

/-- The body of the descending `while` loop of `get_all_down` /
`set_all_down`: from `j`, while `j >= start + W`, step `j -= W` and access
`j`.  Fuel-based translation; the fuel dominates the iteration count
whenever `W > 0` (at the call sites `W` is the literal 32 or 64). -/
def downWhile (start W : Nat) : Nat → Nat → List Nat
  | 0, _ => []
  | fuel+1, j =>
    if start + W ≤ j then (j - W) :: downWhile start W fuel (j - W) else []

/-- Offsets accessed inside one chunk by a down-direction sweep:
`j` starts at `((end - start) / W) * W + start` (the source's "last
aligned position") and walks down by `W`. -/
def downChunkOffsets (start chunk W : Nat) : List Nat :=
  downWhile start W (chunk + 1) ((chunk / W) * W + start)

/-- Offsets accessed by `get_all_up` / `set_all_up` for vector width `W`:
for each worker `i < CPUS` the chunk size `size / CPUS` is computed inside
the worker closure (so with `CPUS = 0` no division is ever executed), and
the worker accesses `j + i * chunk_size` for `j` in `(0..chunk).step_by(W)`. -/
def upSweepOffsets (cpus size W : Nat) : Except String (List Nat) :=
  (List.range cpus).foldlM (fun acc i => do
    let chunk ← rustDiv size cpus
    pure (acc ++ (stepBy chunk W).map (fun j => j + i * chunk))) []

/-- Offsets accessed by `get_all_down` / `set_all_down` for width `W`:
`chunk_size = size / CPUS` is computed before dispatch (so `CPUS = 0`
panics), the workers run in reversed order, each walking its chunk
downwards. -/
def downSweepOffsets (cpus size W : Nat) : Except String (List Nat) := do
  let chunk ← rustDiv size cpus
  pure (((List.range cpus).reverse).flatMap (fun i =>
    downChunkOffsets (i * chunk) chunk W))

/-- Model of `get_all_up` of `tests_avx2.rs` (lines 44-56). -/
def avx2_get_all_up (cpus size : Nat) : Except String (List Nat) :=
  upSweepOffsets cpus size 32

/-- Model of `set_all_up` of `tests_avx2.rs` (lines 83-95). -/
def avx2_set_all_up (cpus size : Nat) : Except String (List Nat) :=
  upSweepOffsets cpus size 32

/-- Model of `get_all_down` of `tests_avx2.rs` (lines 58-75). -/
def avx2_get_all_down (cpus size : Nat) : Except String (List Nat) :=
  downSweepOffsets cpus size 32

/-- Model of `set_all_down` of `tests_avx2.rs` (lines 97-114). -/
def avx2_set_all_down (cpus size : Nat) : Except String (List Nat) :=
  downSweepOffsets cpus size 32

/-- Model of `get_all_up` of `tests_avx512.rs` (lines 45-57). -/
def avx512_get_all_up (cpus size : Nat) : Except String (List Nat) :=
  upSweepOffsets cpus size 64

/-- Model of `set_all_up` of `tests_avx512.rs` (lines 84-96). -/
def avx512_set_all_up (cpus size : Nat) : Except String (List Nat) :=
  upSweepOffsets cpus size 64

/-- Model of `get_all_down` of `tests_avx512.rs` (lines 60-76). -/
def avx512_get_all_down (cpus size : Nat) : Except String (List Nat) :=
  downSweepOffsets cpus size 64

/-- Model of `set_all_down` of `tests_avx512.rs` (lines 99-115). -/
def avx512_set_all_down (cpus size : Nat) : Except String (List Nat) :=
  downSweepOffsets cpus size 64

/-! ## Kernel control-flow skeletons (for the initialization claim)

`avx2_walking_1` (`tests_avx2.rs` lines 472-482) performs, per bit in
`0..64`, four up-direction sweeps (fill pattern, verify pattern, fill
inverse, verify inverse).  `avx2_basic_tests` (lines 117-126) performs,
per pattern in a 6-element list, an up fill/verify pair followed by a
down fill/verify pair.  The pattern values do not affect panicking or
the accessed offsets, so the skeletons record only the sweep sequence. -/

/-- Sweep sequence of `avx2_walking_1`: only up-direction sweeps. -/
def avx2_walking_1_run (cpus size : Nat) : Except String Unit :=
  (List.range 64).foldlM (fun _ _bit => do
    let _ ← avx2_set_all_up cpus size
    let _ ← avx2_get_all_up cpus size
    let _ ← avx2_set_all_up cpus size
    let _ ← avx2_get_all_up cpus size
    pure ()) ()

/-- Sweep sequence of `avx2_basic_tests`: up pair then down pair, per
pattern in `[0x00, 0xFF, 0x0F, 0xF0, 0x55, 0xAA]`. -/
def avx2_basic_tests_run (cpus size : Nat) : Except String Unit :=
  [0x00, 0xFF, 0x0F, 0xF0, 0x55, 0xAA].foldlM (fun _ _pattern => do
    let _ ← avx2_set_all_up cpus size
    let _ ← avx2_get_all_up cpus size
    let _ ← avx2_set_all_down cpus size
    let _ ← avx2_get_all_down cpus size
    pure ()) ()

/-! ## moving_saturations_left_8 patterns

Source: `src/manganese_core/src/tests_avx2.rs` lines 378-403 and
`src/manganese_core/src/tests_avx512.rs` lines 375-400.  Both build the
per-iteration pattern as `_mm(256|512)_srli_epi16::<i>(set1_epi16(0x01))`,
i.e. the 16-bit lane value `0x0001` logically shifted RIGHT by `i`.
One phase is a fill or a verify sweep of a splatted 16-bit lane value. -/

/-- Per-16-bit-lane value of `_mm256_srli_epi16::<i>` applied to a lane. -/
def srli_epi16_lane (x i : Nat) : Nat := (x % 65536) >>> i

/-- The pattern the wide-256 `moving_saturations_left_8` uses at
iteration `i` (one 16-bit lane; all lanes are equal). -/
def avx2_moving_saturations_left_8_pattern (i : Nat) : Nat :=
  srli_epi16_lane 0x01 i

/-- The pattern the wide-512 `moving_saturations_left_8` uses at
iteration `i` (one 16-bit lane; all lanes are equal). -/
def avx512_moving_saturations_left_8_pattern (i : Nat) : Nat :=
  srli_epi16_lane 0x01 i

/-- A phase of a pattern kernel: a fill or a verify sweep carrying a
16-bit lane value. -/
inductive SatPhase where
  | fill (v : Nat)
  | verify (v : Nat)
deriving DecidableEq, Repr

/-- The phase sequence of the wide-256 `moving_saturations_left_8`:
for `i` in `0..8`, fill/verify the pattern, fill/verify zeroes,
fill/verify the pattern again, fill/verify ones (16-bit lane `0xFFFF`). -/
def avx2_moving_saturations_left_8_phases : List SatPhase :=
  (List.range 8).flatMap (fun i =>
    let p := avx2_moving_saturations_left_8_pattern i
    [SatPhase.fill p, SatPhase.verify p,
     SatPhase.fill 0x00, SatPhase.verify 0x00,
     SatPhase.fill p, SatPhase.verify p,
     SatPhase.fill 0xFFFF, SatPhase.verify 0xFFFF])

/-! ## Vectorized xorshift128+

Source: `src/src/simd_xorshift.rs`.  A 256-bit register of four packed
64-bit lanes is a `List Nat` of length 4 (lane 0 first, matching the
memory layout loaded by `_mm256_loadu_si256`). -/

/-- Model of `xorshift128plus_onkeys` (`simd_xorshift.rs` lines 16-22): the scalar
state update.  Note the source reads `s1_val` from `*s0` and `s0_val` from
`*s1`, sets the new `s0` to the old `s1`, and builds the new `s1` from
both old halves. -/
def xorshift128plus_onkeys (s : Nat × Nat) : Nat × Nat :=
  let s1_val := s.1
  let s0_val := s.2
  (s0_val,
   xor64 (xor64 (xor64 (xor64 s1_val (shl64 s1_val 23)) s0_val)
     (shr64 s1_val 18)) (shr64 s0_val 5))

/-- The canonical xorshift128+ jump polynomial. -/
def XORSHIFT_JUMP : List Nat := [0x8a5cd789635d2dff, 0x121fd2155c472f96]

/-- Model of `xorshift128plus_jump_onkeys` (`simd_xorshift.rs` lines 25-44):
accumulate the state into `(s0, s1)` at every set bit of the jump
polynomial while advancing `(in1, in2)` with the scalar update. -/
def xorshift128plus_jump_onkeys (input : Nat × Nat) : Nat × Nat :=
  let res := XORSHIFT_JUMP.foldl (fun acc jump_val =>
    (List.range 64).foldl (fun acc2 b =>
      let s := acc2.1
      let inp := acc2.2
      let s' := if Nat.land jump_val (1 <<< b) ≠ 0
        then (xor64 s.1 inp.1, xor64 s.2 inp.2) else s
      (s', xorshift128plus_onkeys inp)) acc) ((0, 0), input)
  res.1

/-- The AVX2 RNG key: two registers of four 64-bit lanes. -/
structure AvxXorshift128PlusKey where
  part1 : List Nat
  part2 : List Nat
deriving Repr

/-- Model of `avx_xorshift128plus_init` (`simd_xorshift.rs` lines 47-60): lane 0
holds the seed pair, lane `k+1` holds lane `k` jump-advanced once. -/
def avx_xorshift128plus_init (key1 key2 : Nat) : AvxXorshift128PlusKey :=
  let l1 := xorshift128plus_jump_onkeys (key1, key2)
  let l2 := xorshift128plus_jump_onkeys l1
  let l3 := xorshift128plus_jump_onkeys l2
  { part1 := [key1, l1.1, l2.1, l3.1],
    part2 := [key2, l1.2, l2.2, l3.2] }

/-- Model of `avx_xorshift128plus` (`simd_xorshift.rs` lines 62-75): the source
loads `key.part1` into an unused local `_s1`, takes `s0 := key.part2`,
overwrites `part1` with `part2`, builds `s1_new` FROM `key.part2`
(lane-wise `x ^ (x << 23)`), stores
`s1_new ^ s0 ^ (s1_new >> 18) ^ (s0 >> 5)` into `part2`, and returns
`part2 + s0`.  Returns `(new key, output vector)`. -/
def avx_xorshift128plus (key : AvxXorshift128PlusKey) :
    AvxXorshift128PlusKey × List Nat :=
  let s0 := key.part2
  let part1' := key.part2
  let s1_new := List.zipWith (fun x y => xor64 x y) key.part2
    (key.part2.map (fun x => shl64 x 23))
  let part2' := List.zipWith (fun x y => xor64 x y)
    (List.zipWith (fun x y => xor64 x y)
      (List.zipWith (fun x y => xor64 x y) s1_new s0)
      (s1_new.map (fun x => shr64 x 18)))
    (s0.map (fun x => shr64 x 5))
  ({ part1 := part1', part2 := part2' },
   List.zipWith (fun x y => add64 x y) part2' s0)

/-- The first `n` output vectors of the AVX2 RNG from a key. -/
def avx_xorshift128plus_outputs (key : AvxXorshift128PlusKey) : Nat → List (List Nat)
  | 0 => []
  | n+1 =>
    let step := avx_xorshift128plus key
    step.2 :: avx_xorshift128plus_outputs step.1 n

/-- Lane-0 projection of the first `n` outputs of the AVX2 RNG seeded
with `(key1, key2)`. -/
def avx_lane0_stream (key1 key2 n : Nat) : List Nat :=
  (avx_xorshift128plus_outputs (avx_xorshift128plus_init key1 key2) n).map
    (fun v => v.headD 0)

/-- Modelled from the spec (§4.B), which defines the scalar reference
recurrence `s1 ^= s1<<23; s1 ^= s0; s1 ^= s1>>18; s1 ^= s0>>5;
output_lane = s0 + s1; swap(s0,s1)`: one step returning the new state and
the output. -/
def spec_xorshift128plus_step (s : Nat × Nat) : (Nat × Nat) × Nat :=
  let s0 := s.1
  let a := xor64 s.2 (shl64 s.2 23)
  let b := xor64 a s0
  let c := xor64 b (shr64 b 18)
  let d := xor64 c (shr64 s0 5)
  ((d, s0), add64 s0 d)

/-- The first `n` outputs of the spec's scalar reference recurrence. -/
def spec_scalar_stream (s : Nat × Nat) : Nat → List Nat
  | 0 => []
  | n+1 =>
    let step := spec_xorshift128plus_step s
    step.2 :: spec_scalar_stream step.1 n

/-! ## Test catalog and config binder

Source: `src/manganese_core/src/tests.rs`, `src/manganese_core/src/config.rs`,
`src/manganese_core/src/lib.rs`.  A kernel function pointer is a tag naming
the kernel.  Strings are handled through their character lists so that
every operation stays kernel-executable. -/

/-- The ISA probe result (`hardware.rs` lines 5-9). -/
inductive InstructionSet where
  | SSE
  | AVX2
  | AVX512
deriving DecidableEq, Repr

/-- Kernel function pointers stored in the catalogs. -/
inductive Kern where
  | avx2_basic_tests
  | avx2_random_inversions
  | avx2_moving_inversions_left_64
  | avx2_moving_inversions_right_32
  | avx2_moving_inversions_left_16
  | avx2_moving_inversions_right_8
  | avx2_moving_inversions_left_4
  | avx2_moving_saturations_right_16
  | avx2_moving_saturations_left_8
  | avx2_walking_1
  | avx2_walking_0
  | avx2_checkerboard
  | avx2_anti_patterns
  | avx2_inverse_data_patterns
  | avx512_basic_tests
  | avx512_random_inversions
  | avx512_moving_inversions_left_64
  | avx512_moving_inversions_right_32
  | avx512_moving_inversions_left_16
  | avx512_moving_inversions_right_8
  | avx512_moving_inversions_left_4
  | avx512_moving_saturations_right_16
  | avx512_moving_saturations_left_8
  | avx512_walking_1
  | avx512_walking_0
  | avx512_checkerboard
  | avx512_anti_patterns
  | avx512_inverse_data_patterns
deriving DecidableEq, Repr

/-- Model of `TestDefinition` (`tests.rs` lines 8-15). -/
structure TestDefinition where
  name : String
  passes : Nat
  iters : Nat
  run : Kern
  loops : Nat
deriving DecidableEq, Repr

/-- Model of `TestKind` (`tests.rs` lines 17-33). -/
inductive TestKind where
  | BasicTests
  | RandomInversions
  | MovingInversionsLeft64
  | MovingInversionsRight32
  | MovingInversionsLeft16
  | MovingInversionsRight8
  | MovingInversionsLeft4
  | MovingSaturationsRight16
  | MovingSaturationsLeft8
  | Walking1
  | Walking0
  | Checkerboard
  | AntiPatterns
  | InverseDataPatterns
deriving DecidableEq, Repr

/-- Model of `TestKind::parse` (`tests.rs` lines 35-56), on the token's characters. -/
def TestKind.parseTok (s : List Char) : Option TestKind :=
  if s = "basic_tests".data then some .BasicTests
  else if s = "random_inversions".data then some .RandomInversions
  else if s = "moving_inversions_left_64".data then some .MovingInversionsLeft64
  else if s = "moving_inversions_right_32".data then some .MovingInversionsRight32
  else if s = "moving_inversions_left_16".data then some .MovingInversionsLeft16
  else if s = "moving_inversions_right_8".data then some .MovingInversionsRight8
  else if s = "moving_inversions_left_4".data then some .MovingInversionsLeft4
  else if s = "moving_saturations_right_16".data then some .MovingSaturationsRight16
  else if s = "moving_saturations_left_8".data then some .MovingSaturationsLeft8
  else if s = "walking1".data then some .Walking1
  else if s = "walking0".data then some .Walking0
  else if s = "checkerboard".data then some .Checkerboard
  else if s = "anti_patterns".data then some .AntiPatterns
  else if s = "inverse_data_patterns".data then some .InverseDataPatterns
  else none

/-- Model of `avx2_definitions` (`tests.rs` lines 58-164), in source order. -/
def avx2_definitions : List (TestKind × TestDefinition) :=
  [(.BasicTests, ⟨"basic_tests", 4, 6, .avx2_basic_tests, 1⟩),
   (.RandomInversions, ⟨"random_inversions", 4, 16, .avx2_random_inversions, 1⟩),
   (.MovingInversionsLeft64, ⟨"moving_inversions_left_64", 4, 64, .avx2_moving_inversions_left_64, 1⟩),
   (.MovingInversionsRight32, ⟨"moving_inversions_right_32", 4, 32, .avx2_moving_inversions_right_32, 1⟩),
   (.MovingInversionsLeft16, ⟨"moving_inversions_left_16", 4, 16, .avx2_moving_inversions_left_16, 1⟩),
   (.MovingInversionsRight8, ⟨"moving_inversions_right_8", 4, 8, .avx2_moving_inversions_right_8, 1⟩),
   (.MovingInversionsLeft4, ⟨"moving_inversions_left_4", 4, 4, .avx2_moving_inversions_left_4, 1⟩),
   (.MovingSaturationsRight16, ⟨"moving_saturations_right_16", 8, 16, .avx2_moving_saturations_right_16, 1⟩),
   (.MovingSaturationsLeft8, ⟨"moving_saturations_left_8", 8, 8, .avx2_moving_saturations_left_8, 1⟩),
   (.Walking1, ⟨"walking1", 4, 64, .avx2_walking_1, 1⟩),
   (.Walking0, ⟨"walking0", 4, 64, .avx2_walking_0, 1⟩),
   (.Checkerboard, ⟨"checkerboard", 4, 1, .avx2_checkerboard, 8⟩),
   (.AntiPatterns, ⟨"anti_patterns", 8, 34, .avx2_anti_patterns, 1⟩),
   (.InverseDataPatterns, ⟨"inverse_data_patterns", 4, 14, .avx2_inverse_data_patterns, 1⟩)]

/-- Model of `avx512_definitions` (`tests.rs` lines 166-272), in source order. -/
def avx512_definitions : List (TestKind × TestDefinition) :=
  [(.BasicTests, ⟨"basic_tests", 4, 6, .avx512_basic_tests, 1⟩),
   (.RandomInversions, ⟨"random_inversions", 4, 16, .avx512_random_inversions, 1⟩),
   (.MovingInversionsLeft64, ⟨"moving_inversions_left_64", 4, 64, .avx512_moving_inversions_left_64, 1⟩),
   (.MovingInversionsRight32, ⟨"moving_inversions_right_32", 4, 32, .avx512_moving_inversions_right_32, 1⟩),
   (.MovingInversionsLeft16, ⟨"moving_inversions_left_16", 4, 16, .avx512_moving_inversions_left_16, 1⟩),
   (.MovingInversionsRight8, ⟨"moving_inversions_right_8", 4, 8, .avx512_moving_inversions_right_8, 1⟩),
   (.MovingInversionsLeft4, ⟨"moving_inversions_left_4", 4, 4, .avx512_moving_inversions_left_4, 1⟩),
   (.MovingSaturationsRight16, ⟨"moving_saturations_right_16", 8, 16, .avx512_moving_saturations_right_16, 1⟩),
   (.MovingSaturationsLeft8, ⟨"moving_saturations_left_8", 8, 8, .avx512_moving_saturations_left_8, 1⟩),
   (.Walking1, ⟨"walking1", 4, 64, .avx512_walking_1, 1⟩),
   (.Walking0, ⟨"walking0", 4, 64, .avx512_walking_0, 1⟩),
   (.Checkerboard, ⟨"checkerboard", 4, 1, .avx512_checkerboard, 8⟩),
   (.AntiPatterns, ⟨"anti_patterns", 8, 34, .avx512_anti_patterns, 1⟩),
   (.InverseDataPatterns, ⟨"inverse_data_patterns", 4, 14, .avx512_inverse_data_patterns, 1⟩)]

/-- Byte-lexicographic order on character lists (the order `&str : Ord`
uses in `defaults.sort_by_key(|d| d.name)`). -/
def charListLe : List Char → List Char → Bool
  | [], _ => true
  | _ :: _, [] => false
  | a :: as, b :: bs =>
    if a.val.toNat < b.val.toNat then true
    else if b.val.toNat < a.val.toNat then false
    else charListLe as bs

/-- Insert into a name-sorted list (helper of `sortByName`). -/
def insertByName (d : TestDefinition) : List TestDefinition → List TestDefinition
  | [] => [d]
  | e :: l => if charListLe d.name.data e.name.data then d :: e :: l
              else e :: insertByName d l

/-- Model of `Vec::sort_by_key(|d| d.name)`: a sort by name.  All catalog
names are distinct, so any correct (in particular the stable) sort yields
the same list. -/
def sortByName : List TestDefinition → List TestDefinition
  | [] => []
  | d :: l => insertByName d (sortByName l)

/-- Model of `TestConfigEntry` (`config.rs` lines 4-7). -/
structure TestConfigEntry where
  kind : TestKind
  loops : Option Nat
deriving DecidableEq, Repr

/-- Model of `build_tests_from_config` (`config.rs` lines 9-41): empty user list →
all catalog values sorted by name; otherwise one pushed selection per
entry whose kind is found, with the loops override applied. -/
def build_tests_from_config (entries : List TestConfigEntry)
    (isa : InstructionSet) : List TestDefinition :=
  let defs := match isa with
    | .AVX2 => avx2_definitions
    | .AVX512 => avx512_definitions
    | .SSE => []
  if entries.isEmpty then
    sortByName (defs.map Prod.snd)
  else
    entries.foldl (fun result entry =>
      match defs.lookup entry.kind with
      | some d => result ++
          [{ name := d.name, passes := d.passes, iters := d.iters,
             run := d.run, loops := entry.loops.getD d.loops }]
      | none => result) []

/-! ## Config file parser

Source: `load_custom_config` (`config.rs` lines 43-82), as a pure function
of the file's text.  Rust's `str` helpers are modelled on the character
list of the string; error messages are abbreviated (the claims concern
only whether an error occurs). -/

/-- Split a character list at every occurrence of `sep` (`str::lines` with
`sep = '\n'`; a trailing separator yields a final empty piece, which the
parser then skips as a blank line, matching `lines`' behaviour). -/
def splitOnChar (sep : Char) : List Char → List (List Char)
  | [] => [[]]
  | c :: cs =>
    let rest := splitOnChar sep cs
    if c = sep then [] :: rest
    else match rest with
      | [] => [[c]]
      | r :: rs => (c :: r) :: rs

/-- Model of `str::trim`: drop leading and trailing whitespace. -/
def trimChars (l : List Char) : List Char :=
  ((l.dropWhile Char.isWhitespace).reverse.dropWhile Char.isWhitespace).reverse

/-- Model of `str::split_whitespace`: maximal runs of non-whitespace characters. -/
def splitWhitespaceAux : List Char → List Char → List (List Char)
  | [], acc => if acc.isEmpty then [] else [acc.reverse]
  | c :: cs, acc =>
    if c.isWhitespace then
      if acc.isEmpty then splitWhitespaceAux cs []
      else acc.reverse :: splitWhitespaceAux cs []
    else splitWhitespaceAux cs (c :: acc)

/-- Model of `str::split_whitespace`, entry point. -/
def splitWhitespace (l : List Char) : List (List Char) :=
  splitWhitespaceAux l []

/-- Model of `str::parse::<usize>` on a token: digits only, nonempty. -/
def parseUsize (l : List Char) : Option Nat :=
  if l.isEmpty then none
  else if l.all Char.isDigit then
    some (l.foldl (fun acc c => acc * 10 + (c.toNat - '0'.toNat)) 0)
  else none

/-- One `loops=`-token fold step of `load_custom_config` (lines 69-76). -/
def parse_config_token (_loops : Option Nat) (token : List Char) :
    Except String (Option Nat) :=
  if token.take 6 = "loops=".data then
    match parseUsize (token.drop 6) with
    | some v => Except.ok (some v)
    | none => Except.error "Invalid loops value"
  else Except.error "Unknown token"

/-- Model of `load_custom_config` (lines 43-82) applied to the text of an existing
config file: skip blank and `#` lines; the first token of a line must be a
known test name, every further token must be `loops=<usize>`; any
violation aborts with an error. -/
def load_custom_config (text : String) : Except String (List TestConfigEntry) :=
  (splitOnChar '\n' text.data).foldlM (fun acc raw_line => do
    let line := trimChars raw_line
    if line.isEmpty then pure acc
    else if line.take 1 = ['#'] then pure acc
    else
      match splitWhitespace line with
      | [] => Except.error "Invalid line"
      | test_name :: rest =>
        match TestKind.parseTok test_name with
        | none => Except.error "Unknown test"
        | some kind => do
          let loops ← rest.foldlM parse_config_token (none : Option Nat)
          pure (acc ++ [{ kind := kind, loops := loops }])) []

/-- The test selection `run_tests` ends up with (`lib.rs` lines 148-152):
the config file's content when it exists (`none` = missing file); any
error from `load_custom_config` — including parse errors — is replaced by
the empty entry list via `unwrap_or_else`, and the entries are bound
against the catalog. -/
def run_tests_selection (file : Option String) (isa : InstructionSet) :
    List TestDefinition :=
  let entries := match file with
    | none => []
    | some text =>
      match load_custom_config text with
      | Except.ok l => l
      | Except.error _ => []
  build_tests_from_config entries isa

/-! ## Run loop projections

Source: `run_tests` (`lib.rs` lines 156-211).  With the stop flag never
set, one outer iteration invokes each selected test's kernel `loops`
times, in selection order, and sums `passes·iters·loops` over the
selection for the bandwidth report. -/

/-- The kernel invocations of one outer iteration of the run loop
(`for i in 1..(test.loops+1)` per test, stop flag never set). -/
def iterationSchedule (cfg : List TestDefinition) : List Kern :=
  cfg.flatMap (fun t => List.replicate t.loops t.run)

/-- Model of `total_passes` of the per-iteration bandwidth summary
(`lib.rs` lines 206-208). -/
def total_passes (cfg : List TestDefinition) : Nat :=
  (cfg.map (fun t => t.passes * t.iters * t.loops)).sum

/-! ## Buffer acquirer

Source: `run_tests` (`lib.rs` lines 89-145).  The environment is a pair
of oracles: `allocOk s` — `aligned_alloc` returns non-null for size `s`;
`pinOk s` — `mlock` succeeds for size `s`.  The stop flag is never set. -/

/-- The 256 MiB backoff constant (`lib.rs` line 92). -/
def BACKOFF : Nat := 268435456

/-- The sizes the acquisition loop attempts, in order: `rb - i*BACKOFF`
for `i in 0..=(rb/BACKOFF)`, stopping at the `alloc_size == 0` break. -/
def attemptSizes (rb : Nat) : List Nat :=
  ((List.range (rb / BACKOFF + 1)).map (fun i => rb - i * BACKOFF)).takeWhile
    (fun s => s ≠ 0)

/-- The buffer acquisition of `run_tests`: round the request down to a
multiple of `alignment = cpu_count * page_size`, then try the backoff
sizes in order (a null allocation or a failed `mlock` both move on to the
next size); the first size that allocates and pins is returned, `none`
models the fatal `NoMemoryPinned` exit. -/
def acquire_buffer (allocOk pinOk : Nat → Bool) (ramBytes alignment : Nat) :
    Option Nat :=
  let rb := ramBytes - ramBytes % alignment
  (attemptSizes rb).find? (fun s => allocOk s && pinOk s)

/-! ## Spec-side statements of the binder contract -/

/-- Modelled from the spec (§4.G catalog table): the wide-256 catalog as a
total function, used to state the binder contract. -/
def avx2_catalog : TestKind → TestDefinition
  | .BasicTests => ⟨"basic_tests", 4, 6, .avx2_basic_tests, 1⟩
  | .RandomInversions => ⟨"random_inversions", 4, 16, .avx2_random_inversions, 1⟩
  | .MovingInversionsLeft64 => ⟨"moving_inversions_left_64", 4, 64, .avx2_moving_inversions_left_64, 1⟩
  | .MovingInversionsRight32 => ⟨"moving_inversions_right_32", 4, 32, .avx2_moving_inversions_right_32, 1⟩
  | .MovingInversionsLeft16 => ⟨"moving_inversions_left_16", 4, 16, .avx2_moving_inversions_left_16, 1⟩
  | .MovingInversionsRight8 => ⟨"moving_inversions_right_8", 4, 8, .avx2_moving_inversions_right_8, 1⟩
  | .MovingInversionsLeft4 => ⟨"moving_inversions_left_4", 4, 4, .avx2_moving_inversions_left_4, 1⟩
  | .MovingSaturationsRight16 => ⟨"moving_saturations_right_16", 8, 16, .avx2_moving_saturations_right_16, 1⟩
  | .MovingSaturationsLeft8 => ⟨"moving_saturations_left_8", 8, 8, .avx2_moving_saturations_left_8, 1⟩
  | .Walking1 => ⟨"walking1", 4, 64, .avx2_walking_1, 1⟩
  | .Walking0 => ⟨"walking0", 4, 64, .avx2_walking_0, 1⟩
  | .Checkerboard => ⟨"checkerboard", 4, 1, .avx2_checkerboard, 8⟩
  | .AntiPatterns => ⟨"anti_patterns", 8, 34, .avx2_anti_patterns, 1⟩
  | .InverseDataPatterns => ⟨"inverse_data_patterns", 4, 14, .avx2_inverse_data_patterns, 1⟩

/-- Modelled from the spec (§4.G catalog table): the wide-512 catalog as a
total function. -/
def avx512_catalog : TestKind → TestDefinition
  | .BasicTests => ⟨"basic_tests", 4, 6, .avx512_basic_tests, 1⟩
  | .RandomInversions => ⟨"random_inversions", 4, 16, .avx512_random_inversions, 1⟩
  | .MovingInversionsLeft64 => ⟨"moving_inversions_left_64", 4, 64, .avx512_moving_inversions_left_64, 1⟩
  | .MovingInversionsRight32 => ⟨"moving_inversions_right_32", 4, 32, .avx512_moving_inversions_right_32, 1⟩
  | .MovingInversionsLeft16 => ⟨"moving_inversions_left_16", 4, 16, .avx512_moving_inversions_left_16, 1⟩
  | .MovingInversionsRight8 => ⟨"moving_inversions_right_8", 4, 8, .avx512_moving_inversions_right_8, 1⟩
  | .MovingInversionsLeft4 => ⟨"moving_inversions_left_4", 4, 4, .avx512_moving_inversions_left_4, 1⟩
  | .MovingSaturationsRight16 => ⟨"moving_saturations_right_16", 8, 16, .avx512_moving_saturations_right_16, 1⟩
  | .MovingSaturationsLeft8 => ⟨"moving_saturations_left_8", 8, 8, .avx512_moving_saturations_left_8, 1⟩
  | .Walking1 => ⟨"walking1", 4, 64, .avx512_walking_1, 1⟩
  | .Walking0 => ⟨"walking0", 4, 64, .avx512_walking_0, 1⟩
  | .Checkerboard => ⟨"checkerboard", 4, 1, .avx512_checkerboard, 8⟩
  | .AntiPatterns => ⟨"anti_patterns", 8, 34, .avx512_anti_patterns, 1⟩
  | .InverseDataPatterns => ⟨"inverse_data_patterns", 4, 14, .avx512_inverse_data_patterns, 1⟩

/-- Modelled from the spec (§4.G binder contract): for a non-empty user
list, return one selected test per entry in the user's order, a loops
override replacing only the `loops` field. -/
def spec_binder_select (catalog : TestKind → TestDefinition)
    (entries : List TestConfigEntry) : List TestDefinition :=
  entries.map (fun e =>
    { catalog e.kind with loops := e.loops.getD (catalog e.kind).loops })

/-! # Theorems -/

/-! ## Helper lemmas -/

theorem popcountAux_zero (fuel : Nat) : popcountAux fuel 0 = 0 := by
  induction fuel with
  | zero => rfl
  | succ f ih => simp [popcountAux, ih]

theorem popcountAux_bitsToNat (bs : List Bool) :
    ∀ fuel, bs.length ≤ fuel → popcountAux fuel (bitsToNat bs) = bs.count true := by
  induction bs with
  | nil => intro fuel _; simpa [bitsToNat] using popcountAux_zero fuel
  | cons b bs ih =>
    intro fuel hf
    match fuel, hf with
    | f + 1, hf =>
      have hlen : bs.length ≤ f := by simpa using hf
      have hmod : ((if b then 1 else 0) + 2 * bitsToNat bs) % 2 = (if b then 1 else 0) := by
        cases b <;> simp
      have hdiv : ((if b then 1 else 0) + 2 * bitsToNat bs) / 2 = bitsToNat bs := by
        cases b
        · simp
        · simp
          omega
      have hstep : bitsToNat (b :: bs) = (if b then 1 else 0) + 2 * bitsToNat bs := rfl
      rw [hstep]
      show ((if b then 1 else 0) + 2 * bitsToNat bs) % 2 +
        popcountAux f (((if b then 1 else 0) + 2 * bitsToNat bs) / 2) = (b :: bs).count true
      rw [hmod, hdiv, ih f hlen]
      cases b
      · simp [List.count_cons]
      · simp [List.count_cons]
        omega

theorem bitsToNat_eq_zero_iff (bs : List Bool) :
    bitsToNat bs = 0 ↔ bs.count true = 0 := by
  induction bs with
  | nil => simp [bitsToNat]
  | cons b bs ih =>
    have hstep : bitsToNat (b :: bs) = (if b then 1 else 0) + 2 * bitsToNat bs := rfl
    rw [hstep]
    cases b
    · simpa [List.count_cons] using ih
    · simp [List.count_cons]

/-! ## C1 -/

/-- C1: the claim says the wide-256 `get` increments the error counter
(by at least 1) and logs whenever at least one byte of the loaded vector
differs, and does neither when no byte differs.  The code disagrees:
`_mm256_testz_si256(cmp, cmp)` on the `cmpeq` mask is nonzero exactly when
the mask is all-zero, i.e. when EVERY byte differs, so a vector with a
single flipped byte (31 of 32 bytes equal) is neither counted nor logged;
only an all-bytes-different vector is.  The other revision
(`src/src/tests_avx2.rs`) is wrong in the opposite direction: it counts 64
errors when the vectors are entirely equal.  Evaluations at the spec's
own fault-injection scenario (`verify_up(0xAA)` with one byte flipped to
`0x55`). -/
theorem C1_wide256_get_polarity_bug :
    core_avx2_get (List.replicate 32 0xAA) (0x55 :: List.replicate 31 0xAA) 0 = (0, false) ∧
    numDiffBytes (List.replicate 32 0xAA) (0x55 :: List.replicate 31 0xAA) = 1 ∧
    core_avx2_get (List.replicate 32 0xAA) (List.replicate 32 0x55) 0 = (1, true) ∧
    core_avx2_get (List.replicate 32 0xAA) (List.replicate 32 0xAA) 0 = (0, false) ∧
    src_avx2_get (List.replicate 32 0xAA) (List.replicate 32 0xAA) 0 = (64, true) := by
  refine ⟨by decide, by decide, by decide, by decide, by decide⟩

/-! ## C2 -/

/-- C2: the wide-512 `get` adds exactly the number of mismatching bytes
(the popcount of the 64-bit byte-inequality mask) to the error counter
when any byte differs, logs in exactly that case, and leaves the counter
unchanged when all 64 bytes are equal. -/
theorem C2_wide512_get_exact_count (expected actual : List Nat) (errors : Nat)
    (h1 : expected.length = 64) (h2 : actual.length = 64) :
    (core_avx512_get expected actual errors).1 = errors + numDiffBytes expected actual ∧
    ((core_avx512_get expected actual errors).2 = true ↔
      numDiffBytes expected actual ≠ 0) := by
  have hlen : (List.zipWith (fun e a => decide (e ≠ a)) expected actual).length ≤ 64 := by
    simp [List.length_zipWith, h1, h2]
  have hpc : count_ones64 (mm512_cmp_epu8_mask_ne expected actual) =
      numDiffBytes expected actual := by
    unfold count_ones64 mm512_cmp_epu8_mask_ne numDiffBytes
    exact popcountAux_bitsToNat _ 64 hlen
  have hz : mm512_cmp_epu8_mask_ne expected actual = 0 ↔
      numDiffBytes expected actual = 0 := by
    unfold mm512_cmp_epu8_mask_ne numDiffBytes
    exact bitsToNat_eq_zero_iff _
  unfold core_avx512_get
  by_cases hres : mm512_cmp_epu8_mask_ne expected actual = 0
  · have hnum : numDiffBytes expected actual = 0 := hz.mp hres
    simp [hres, hnum]
  · have hnum : numDiffBytes expected actual ≠ 0 := fun h => hres (hz.mpr h)
    simp [hres, hpc, hnum]

/-- Witness for C2: the spec's fault-injection scenario, a single byte of
a 64-byte vector flipped from `0xAA` to `0x55`, increments the counter by
exactly `numDiffBytes = 1`. -/
theorem C2_wide512_get_exact_count_witness :
    (List.replicate 64 0xAA : List Nat).length = 64 ∧
    numDiffBytes (List.replicate 64 0xAA) (0x55 :: List.replicate 63 0xAA) = 1 ∧
    (core_avx512_get (List.replicate 64 0xAA) (0x55 :: List.replicate 63 0xAA) 5).1 =
      5 + numDiffBytes (List.replicate 64 0xAA) (0x55 :: List.replicate 63 0xAA) :=
  ⟨by decide, by decide,
   (C2_wide512_get_exact_count (List.replicate 64 0xAA)
     (0x55 :: List.replicate 63 0xAA) 5 (by decide) (by decide)).1⟩

/-! ## C4 -/

/-- C4: the claim says iteration `k` of `moving_saturations_left_8` uses
the pattern `0x01 << k` on both vector widths.  The code instead computes
`srli_epi16(set1_epi16(0x01), k)`, a logical RIGHT shift of the 16-bit
lane `0x0001`, so the pattern is 1 at `k = 0` and 0 for every `k ≥ 1` —
not `1 << k` — on both the wide-256 and wide-512 paths (the four-phase
fill/verify shape itself does match the claim). -/
theorem C4_moving_saturations_left_8_pattern_bug :
    (List.range 8).map avx2_moving_saturations_left_8_pattern = [1, 0, 0, 0, 0, 0, 0, 0] ∧
    (List.range 8).map avx512_moving_saturations_left_8_pattern = [1, 0, 0, 0, 0, 0, 0, 0] ∧
    (List.range 8).map (fun k => (0x01 <<< k) % 65536) = [1, 2, 4, 8, 16, 32, 64, 128] ∧
    avx2_moving_saturations_left_8_phases ≠
      (List.range 8).flatMap (fun k =>
        let p := (0x01 <<< k) % 65536
        [SatPhase.fill p, SatPhase.verify p,
         SatPhase.fill 0x00, SatPhase.verify 0x00,
         SatPhase.fill p, SatPhase.verify p,
         SatPhase.fill 0xFFFF, SatPhase.verify 0xFFFF]) := by
  refine ⟨by decide, by decide, by decide, by decide⟩

/-! ## C5 -/

/-- C5: the claim says the lane-0 output stream of `avx_xorshift128plus`
equals the scalar xorshift128+ reference stream for the same nonzero seed
pair.  The code's vector step reads `key.part1` into a dead local and
derives the update entirely from `key.part2`, so `part1` never influences
any output: seeded with the nonzero pair `(1, 0)`, lane 0 of the vector
stream is constantly 0 (lane state `part2 = 0` is a fixed point), while
the scalar reference from `(1, 0)` immediately produces nonzero values
(first spec-recurrence output 2; the source's own scalar
`xorshift128plus_onkeys` maps `(1, 0)` to `(0, 0x800001)`).  The final
conjunct shows the output vector ignores `part1` entirely. -/
theorem C5_vector_lane0_diverges_from_scalar :
    avx_lane0_stream 1 0 3 = [0, 0, 0] ∧
    spec_scalar_stream (1, 0) 2 = [2, 0x800021] ∧
    xorshift128plus_onkeys (1, 0) = (0, 0x800001) ∧
    (avx_xorshift128plus ⟨[1, 2, 3, 4], [0, 0, 0, 0]⟩).2 = [0, 0, 0, 0] ∧
    (avx_xorshift128plus ⟨[1, 0, 0, 0], [9, 7, 7, 7]⟩).2 =
      (avx_xorshift128plus ⟨[5, 0, 0, 0], [9, 7, 7, 7]⟩).2 := by
  refine ⟨by rfl, by decide, by decide, by rfl, by rfl⟩

/-! ## Sweep partition lemmas (C3, C10) -/

theorem except_bind_ok {α β : Type} (x : α) (f : α → Except String β) :
    (Except.ok x >>= f) = f x := rfl

theorem except_pure_eq {β : Type} (x : β) :
    (pure x : Except String β) = Except.ok x := rfl

theorem stepBy_mul (c W : Nat) (hW : 1 ≤ W) :
    stepBy (c * W) W = (List.range c).map (fun k => k * W) := by
  unfold stepBy
  congr 2
  have h1 : c * W + W - 1 = (W - 1) + c * W := by omega
  rw [h1, Nat.add_mul_div_right _ _ (by omega : 0 < W),
    Nat.div_eq_of_lt (by omega : W - 1 < W), Nat.zero_add]

theorem range_flatMap_blocks (W c : Nat) :
    ∀ n : Nat, (List.range n).flatMap
        (fun i => (List.range c).map (fun k => k * W + i * (c * W))) =
      (List.range (n * c)).map (fun k => k * W) := by
  intro n
  induction n with
  | zero => simp
  | succ n ih =>
    rw [List.range_succ, List.flatMap_append, ih, Nat.succ_mul, List.range_add,
      List.map_append]
    congr 1
    simp only [List.flatMap_cons, List.flatMap_nil, List.append_nil, List.map_map]
    apply List.map_congr_left
    intro a _
    simp only [Function.comp_apply]
    ring

theorem foldlM_ok_append (g : Nat → List Nat) :
    ∀ (l : List Nat) (acc : List Nat),
      (l.foldlM (fun acc i => Except.ok (acc ++ g i)) acc :
          Except String (List Nat)) =
      Except.ok (acc ++ l.flatMap g) := by
  intro l
  induction l with
  | nil => intro acc; simp [List.foldlM]; rfl
  | cons a l ih =>
    intro acc
    simp only [List.foldlM_cons, except_bind_ok]
    rw [ih]
    simp [List.append_assoc]

theorem upSweep_foldlM (size cpus W : Nat) (h : cpus ≠ 0) :
    ∀ (l : List Nat) (acc : List Nat),
      (l.foldlM (fun acc i => do
        let chunk ← rustDiv size cpus
        pure (acc ++ (stepBy chunk W).map (fun j => j + i * chunk))) acc :
          Except String (List Nat)) =
      Except.ok (acc ++ l.flatMap (fun i =>
        (stepBy (size / cpus) W).map (fun j => j + i * (size / cpus)))) := by
  intro l acc
  have hdiv : rustDiv size cpus = Except.ok (size / cpus) := by simp [rustDiv, h]
  simp only [hdiv, except_bind_ok, except_pure_eq]
  exact foldlM_ok_append
    (fun i => (stepBy (size / cpus) W).map (fun j => j + i * (size / cpus))) l acc

theorem upSweepOffsets_ok (cpus size W : Nat) (h : cpus ≠ 0) :
    upSweepOffsets cpus size W = Except.ok ((List.range cpus).flatMap (fun i =>
      (stepBy (size / cpus) W).map (fun j => j + i * (size / cpus)))) := by
  unfold upSweepOffsets
  rw [upSweep_foldlM size cpus W h (List.range cpus) []]
  simp

theorem downSweepOffsets_ok (cpus size W : Nat) (h : cpus ≠ 0) :
    downSweepOffsets cpus size W = Except.ok
      (((List.range cpus).reverse).flatMap (fun i =>
        downChunkOffsets (i * (size / cpus)) (size / cpus) W)) := by
  have hdiv : rustDiv size cpus = Except.ok (size / cpus) := by simp [rustDiv, h]
  unfold downSweepOffsets
  rw [hdiv]
  rfl

theorem upSweep_partition (cpus m W : Nat) (hc : 1 ≤ cpus) (hW : 1 ≤ W) :
    upSweepOffsets cpus (cpus * (m * W)) W =
      Except.ok ((List.range (cpus * m)).map (fun k => k * W)) := by
  have hchunk : cpus * (m * W) / cpus = m * W :=
    Nat.mul_div_cancel_left _ (by omega)
  rw [upSweepOffsets_ok cpus _ W (by omega), hchunk, stepBy_mul m W hW]
  have hfun : (fun i => ((List.range m).map (fun k => k * W)).map
        (fun j => j + i * (m * W))) =
      (fun i => (List.range m).map (fun k => k * W + i * (m * W))) := by
    funext i
    rw [List.map_map]
    rfl
  rw [hfun, range_flatMap_blocks W m cpus]

theorem downWhile_eq (start W : Nat) (hW : 1 ≤ W) :
    ∀ (m fuel : Nat), m ≤ fuel →
      downWhile start W fuel (start + m * W) =
        (List.range m).reverse.map (fun k => start + k * W) := by
  intro m
  induction m with
  | zero =>
    intro fuel _
    cases fuel with
    | zero => rfl
    | succ f =>
      unfold downWhile
      rw [if_neg (by omega)]
      rfl
  | succ m ih =>
    intro fuel hf
    match fuel, hf with
    | f + 1, hf =>
      have harith : start + (m + 1) * W - W = start + m * W := by
        rw [Nat.succ_mul]; omega
      unfold downWhile
      rw [if_pos (by rw [Nat.succ_mul]; omega), harith, ih f (by omega)]
      rw [List.range_succ, List.reverse_append]
      rfl

theorem downChunkOffsets_eq (start m W : Nat) (hW : 1 ≤ W) :
    downChunkOffsets start (m * W) W =
      (List.range m).reverse.map (fun k => start + k * W) := by
  unfold downChunkOffsets
  rw [Nat.mul_div_cancel m (by omega : 0 < W), Nat.add_comm (m * W) start]
  exact downWhile_eq start W hW m (m * W + 1)
    (le_trans (Nat.le_mul_of_pos_right m (by omega)) (Nat.le_succ _))

theorem reverse_flatMap_reverse {α β : Type} (f : α → List β) :
    ∀ l : List α,
      l.reverse.flatMap (fun x => (f x).reverse) = (l.flatMap f).reverse := by
  intro l
  induction l with
  | nil => rfl
  | cons a l ih =>
    simp only [List.reverse_cons, List.flatMap_append, List.flatMap_cons,
      List.flatMap_nil, List.append_nil, List.reverse_append, ih]

theorem downSweep_partition (cpus m W : Nat) (hc : 1 ≤ cpus) (hW : 1 ≤ W) :
    downSweepOffsets cpus (cpus * (m * W)) W =
      Except.ok (((List.range (cpus * m)).map (fun k => k * W)).reverse) := by
  have hchunk : cpus * (m * W) / cpus = m * W :=
    Nat.mul_div_cancel_left _ (by omega)
  rw [downSweepOffsets_ok cpus _ W (by omega), hchunk]
  congr 1
  have hchunkfun : (fun i => downChunkOffsets (i * (m * W)) (m * W) W) =
      (fun i => ((List.range m).map (fun k => i * (m * W) + k * W)).reverse) := by
    funext i
    rw [downChunkOffsets_eq (i * (m * W)) m W hW, List.map_reverse]
  rw [hchunkfun, reverse_flatMap_reverse (fun i =>
    (List.range m).map (fun k => i * (m * W) + k * W)) (List.range cpus)]
  congr 1
  have hfun2 : (fun i => (List.range m).map (fun k => i * (m * W) + k * W)) =
      (fun i => (List.range m).map (fun k => k * W + i * (m * W))) := by
    funext i
    apply List.map_congr_left
    intro a _
    ring
  rw [hfun2, range_flatMap_blocks W m cpus]

/-! ## C3 -/

/-- C3: for a buffer of size `cpus * (m * W)` (a positive multiple of
`cpu_count × W`), every sweep primitive accesses exactly the offsets
`{k·W | 0 ≤ k < size/W}` — the up sweeps in ascending order, the down
sweeps in the reversed order — with no offset missed and none accessed
twice (the canonical offset list is duplicate-free, and each worker's
block lies inside its own chunk).  Within each chunk the down-direction
sweeps start at `((chunk_len / W) × W) − W` relative to the chunk start
and decrease by `W` down to offset 0 of the chunk. -/
theorem C3_sweep_partition (cpus m : Nat) (hc : 1 ≤ cpus) (hm : 1 ≤ m) :
    (avx2_set_all_up cpus (cpus * (m * 32)) =
        Except.ok ((List.range (cpus * m)).map (fun k => k * 32)) ∧
      avx2_get_all_up cpus (cpus * (m * 32)) =
        Except.ok ((List.range (cpus * m)).map (fun k => k * 32)) ∧
      avx2_set_all_down cpus (cpus * (m * 32)) =
        Except.ok (((List.range (cpus * m)).map (fun k => k * 32)).reverse) ∧
      avx2_get_all_down cpus (cpus * (m * 32)) =
        Except.ok (((List.range (cpus * m)).map (fun k => k * 32)).reverse) ∧
      ((List.range (cpus * m)).map (fun k => k * 32)).Nodup ∧
      (∀ i, downChunkOffsets (i * (m * 32)) (m * 32) 32 =
        (List.range m).reverse.map (fun k => i * (m * 32) + k * 32)) ∧
      (downChunkOffsets 0 (m * 32) 32).headD 0 = (m * 32) / 32 * 32 - 32) ∧
    (avx512_set_all_up cpus (cpus * (m * 64)) =
        Except.ok ((List.range (cpus * m)).map (fun k => k * 64)) ∧
      avx512_get_all_up cpus (cpus * (m * 64)) =
        Except.ok ((List.range (cpus * m)).map (fun k => k * 64)) ∧
      avx512_set_all_down cpus (cpus * (m * 64)) =
        Except.ok (((List.range (cpus * m)).map (fun k => k * 64)).reverse) ∧
      avx512_get_all_down cpus (cpus * (m * 64)) =
        Except.ok (((List.range (cpus * m)).map (fun k => k * 64)).reverse) ∧
      ((List.range (cpus * m)).map (fun k => k * 64)).Nodup ∧
      (∀ i, downChunkOffsets (i * (m * 64)) (m * 64) 64 =
        (List.range m).reverse.map (fun k => i * (m * 64) + k * 64)) ∧
      (downChunkOffsets 0 (m * 64) 64).headD 0 = (m * 64) / 64 * 64 - 64) := by
  have hnodup : ∀ W : Nat, 1 ≤ W → ((List.range (cpus * m)).map (fun k => k * W)).Nodup :=
    fun W hW => (List.nodup_range _).map
      (fun a b hab => Nat.eq_of_mul_eq_mul_right (by omega) hab)
  have hhead : ∀ W : Nat, 1 ≤ W →
      (downChunkOffsets 0 (m * W) W).headD 0 = (m * W) / W * W - W := by
    intro W hW
    rw [downChunkOffsets_eq 0 m W hW, Nat.mul_div_cancel m (by omega : 0 < W)]
    match m, hm with
    | n + 1, _ =>
      rw [List.range_succ, List.reverse_append]
      simp [Nat.succ_mul]
  exact ⟨⟨upSweep_partition cpus m 32 hc (by omega),
      upSweep_partition cpus m 32 hc (by omega),
      downSweep_partition cpus m 32 hc (by omega),
      downSweep_partition cpus m 32 hc (by omega),
      hnodup 32 (by omega),
      fun i => downChunkOffsets_eq (i * (m * 32)) m 32 (by omega),
      hhead 32 (by omega)⟩,
    ⟨upSweep_partition cpus m 64 hc (by omega),
      upSweep_partition cpus m 64 hc (by omega),
      downSweep_partition cpus m 64 hc (by omega),
      downSweep_partition cpus m 64 hc (by omega),
      hnodup 64 (by omega),
      fun i => downChunkOffsets_eq (i * (m * 64)) m 64 (by omega),
      hhead 64 (by omega)⟩⟩

/-- Witness for C3 at `cpus = 2`, `m = 3`: the wide-256 up sweep touches
exactly the six offsets `0, 32, …, 160` of a 192-byte buffer. -/
theorem C3_sweep_partition_witness :
    (1 ≤ 2 ∧ 1 ≤ 3) ∧
    avx2_set_all_up 2 (2 * (3 * 32)) =
      Except.ok ((List.range (2 * 3)).map (fun k => k * 32)) :=
  ⟨⟨by decide, by decide⟩, (C3_sweep_partition 2 3 (by decide) (by decide)).1.1⟩

/-! ## C10 -/

theorem foldlM_unit_ok {α : Type} (g : Unit → α → Except String Unit)
    (hg : ∀ a, g () a = Except.ok ()) :
    ∀ l : List α, l.foldlM g () = Except.ok () := by
  intro l
  induction l with
  | nil => rfl
  | cons a l ih =>
    simp only [List.foldlM_cons, hg a, except_bind_ok]
    exact ih

/-- Counterexample to C10 as stated: invoking a kernel without
`tests_init` does NOT always divide by zero on its first sweep.  With the
module-global `CPUS` still 0, `avx2_walking_1` — whose sweeps are all
up-direction, computing `size / CPUS` inside the per-worker closure of an
empty worker range — completes without any division (and performs no
accesses at all), as does each up sweep alone.  Only the down-direction
sweeps, whose `chunk_size = size / CPUS` is computed before dispatch,
panic — so `avx2_basic_tests` panics at its third sweep, not its first. -/
theorem C10_counterexample_uninit_kernel_no_panic :
    avx2_walking_1_run 0 1024 = Except.ok () ∧
    avx2_get_all_up 0 1024 = Except.ok [] ∧
    avx2_basic_tests_run 0 1024 = Except.error "attempt to divide by zero" ∧
    avx2_get_all_down 0 1024 = Except.error "attempt to divide by zero" :=
  ⟨rfl, rfl, rfl, rfl⟩

/-- C10 (amended): all sweep primitives read the module-global `CPUS`;
after `tests_init` with `cpus ≥ 1` every sweep's division is well-defined
and no kernel can hit the division-by-zero branch.  Without
initialization (`CPUS = 0`), the down-direction sweeps — which compute
`chunk_size = size / CPUS` before dispatching workers — panic with
division by zero, while the up-direction sweeps compute the quotient
inside the (then empty) worker loop and therefore complete as no-ops, so
kernels built only from up sweeps (such as `walking1`) run to completion
without ever dividing. -/
theorem C10_division_guard (cpus size : Nat) (h : 1 ≤ cpus) :
    (avx2_get_all_up cpus size).isOk = true ∧
    (avx2_set_all_up cpus size).isOk = true ∧
    (avx2_get_all_down cpus size).isOk = true ∧
    (avx2_set_all_down cpus size).isOk = true ∧
    (avx512_get_all_up cpus size).isOk = true ∧
    (avx512_set_all_up cpus size).isOk = true ∧
    (avx512_get_all_down cpus size).isOk = true ∧
    (avx512_set_all_down cpus size).isOk = true ∧
    (avx2_walking_1_run cpus size).isOk = true ∧
    (avx2_basic_tests_run cpus size).isOk = true ∧
    avx2_get_all_up 0 size = Except.ok [] ∧
    avx2_set_all_up 0 size = Except.ok [] ∧
    (avx2_get_all_down 0 size).isOk = false ∧
    (avx2_set_all_down 0 size).isOk = false := by
  have hne : cpus ≠ 0 := by omega
  have hup32 := upSweepOffsets_ok cpus size 32 hne
  have hup64 := upSweepOffsets_ok cpus size 64 hne
  have hdown32 := downSweepOffsets_ok cpus size 32 hne
  have hdown64 := downSweepOffsets_ok cpus size 64 hne
  have hupOk : ∀ W, (upSweepOffsets cpus size W).isOk = true := by
    intro W
    rw [upSweepOffsets_ok cpus size W hne]
    rfl
  have hdownOk : ∀ W, (downSweepOffsets cpus size W).isOk = true := by
    intro W
    rw [downSweepOffsets_ok cpus size W hne]
    rfl
  have hwalking : avx2_walking_1_run cpus size = Except.ok () := by
    unfold avx2_walking_1_run
    apply foldlM_unit_ok
    intro a
    show (do
      let _ ← avx2_set_all_up cpus size
      let _ ← avx2_get_all_up cpus size
      let _ ← avx2_set_all_up cpus size
      let _ ← avx2_get_all_up cpus size
      pure () : Except String Unit) = Except.ok ()
    unfold avx2_set_all_up avx2_get_all_up
    rw [hup32]
    rfl
  have hbasic : avx2_basic_tests_run cpus size = Except.ok () := by
    unfold avx2_basic_tests_run
    apply foldlM_unit_ok
    intro a
    show (do
      let _ ← avx2_set_all_up cpus size
      let _ ← avx2_get_all_up cpus size
      let _ ← avx2_set_all_down cpus size
      let _ ← avx2_get_all_down cpus size
      pure () : Except String Unit) = Except.ok ()
    unfold avx2_set_all_up avx2_get_all_up avx2_set_all_down avx2_get_all_down
    rw [hup32, hdown32]
    rfl
  refine ⟨hupOk 32, hupOk 32, hdownOk 32, hdownOk 32, hupOk 64, hupOk 64,
    hdownOk 64, hdownOk 64, ?_, ?_, rfl, rfl, rfl, rfl⟩
  · rw [hwalking]; rfl
  · rw [hbasic]; rfl

/-- Witness for C10 (amended) at `cpus = 1`, `size = 64`. -/
theorem C10_division_guard_witness :
    1 ≤ 1 ∧ (avx2_get_all_down 1 64).isOk = true :=
  ⟨by decide, (C10_division_guard 1 64 (by decide)).2.2.1⟩

/-! ## C6 -/

/-- Counterexample to C6 as stated: a config file consisting of the
single malformed line `bogus_test` makes `load_custom_config` fail, yet
preparation does not fail fatally — `run_tests` swallows the error
(`unwrap_or_else(|_| vec![])`, warning as if the file were missing) and
proceeds with the full 14-test default selection as fallback. -/
theorem C6_counterexample_bad_line_not_fatal :
    (load_custom_config "bogus_test").isOk = false ∧
    run_tests_selection (some "bogus_test") InstructionSet.AVX2 =
      build_tests_from_config [] InstructionSet.AVX2 ∧
    (run_tests_selection (some "bogus_test") InstructionSet.AVX2).length = 14 :=
  ⟨rfl, rfl, rfl⟩

/-- C6 (amended): if the config file exists but contains a malformed
line, an unknown test name, or a bad loops integer, `load_custom_config`
returns an error, but `run_tests` discards it and falls back to the
complete default selection (exactly as if the file were missing); the run
starts, and no partial selection is applied. -/
theorem C6_bad_config_falls_back_to_defaults (text : String)
    (isa : InstructionSet) (h : (load_custom_config text).isOk = false) :
    run_tests_selection (some text) isa = build_tests_from_config [] isa := by
  show build_tests_from_config
    (match load_custom_config text with
      | Except.ok l => l
      | Except.error _ => []) isa = build_tests_from_config [] isa
  cases hlc : load_custom_config text with
  | ok l => rw [hlc] at h; simp [Except.isOk, Except.toBool] at h
  | error e => rfl

/-- Witness for C6 (amended): the malformed one-line file `bogus_test`. -/
theorem C6_bad_config_falls_back_witness :
    (load_custom_config "bogus_test").isOk = false ∧
    run_tests_selection (some "bogus_test") InstructionSet.AVX2 =
      build_tests_from_config [] InstructionSet.AVX2 :=
  ⟨rfl, C6_bad_config_falls_back_to_defaults "bogus_test" InstructionSet.AVX2 rfl⟩

/-! ## C7 and C9 helpers -/

theorem avx2_lookup_total (k : TestKind) :
    avx2_definitions.lookup k = some (avx2_catalog k) := by
  cases k <;> rfl

theorem avx512_lookup_total (k : TestKind) :
    avx512_definitions.lookup k = some (avx512_catalog k) := by
  cases k <;> rfl

theorem foldl_append_map {α β : Type} (g : α → β) :
    ∀ (l : List α) (acc : List β),
      l.foldl (fun r e => r ++ [g e]) acc = acc ++ l.map g := by
  intro l
  induction l with
  | nil => intro acc; simp
  | cons a l ih => intro acc; simp [ih]

theorem build_nonempty_avx2 (entries : List TestConfigEntry)
    (h : entries ≠ []) :
    build_tests_from_config entries InstructionSet.AVX2 =
      spec_binder_select avx2_catalog entries := by
  have hbody : (fun (result : List TestDefinition) (entry : TestConfigEntry) =>
      match avx2_definitions.lookup entry.kind with
      | some d => result ++
          [{ name := d.name, passes := d.passes, iters := d.iters,
             run := d.run, loops := entry.loops.getD d.loops }]
      | none => result) =
      (fun result entry => result ++
        [{ avx2_catalog entry.kind with
           loops := entry.loops.getD (avx2_catalog entry.kind).loops }]) := by
    funext r e
    rw [avx2_lookup_total e.kind]
  match entries, h with
  | e :: es, _ =>
    simp only [build_tests_from_config, List.isEmpty_cons, Bool.false_eq_true,
      if_false, hbody]
    rw [foldl_append_map]
    simp [spec_binder_select]

theorem build_nonempty_avx512 (entries : List TestConfigEntry)
    (h : entries ≠ []) :
    build_tests_from_config entries InstructionSet.AVX512 =
      spec_binder_select avx512_catalog entries := by
  have hbody : (fun (result : List TestDefinition) (entry : TestConfigEntry) =>
      match avx512_definitions.lookup entry.kind with
      | some d => result ++
          [{ name := d.name, passes := d.passes, iters := d.iters,
             run := d.run, loops := entry.loops.getD d.loops }]
      | none => result) =
      (fun result entry => result ++
        [{ avx512_catalog entry.kind with
           loops := entry.loops.getD (avx512_catalog entry.kind).loops }]) := by
    funext r e
    rw [avx512_lookup_total e.kind]
  match entries, h with
  | e :: es, _ =>
    simp only [build_tests_from_config, List.isEmpty_cons, Bool.false_eq_true,
      if_false, hbody]
    rw [foldl_append_map]
    simp [spec_binder_select]

/-! ## C7 -/

/-- C7: the config binder contract.  For the empty user list,
`build_tests_from_config` returns all 14 catalog entries of the given ISA
sorted by name (shown as the explicit sorted lists for both ISAs).  For a
non-empty list it returns exactly one selected test per entry, in the
user's order, where a loops override replaces only the `loops` field and
`name`, `passes`, `iters` and the kernel come unchanged from the catalog
(`spec_binder_select` over the spec's catalog table).  The last conjunct
is the spec's concrete scenario: `[walking1 None, checkerboard Some 0,
basic_tests Some 3]` on wide-256 yields those three tests in that order
with loops 1, 0, 3. -/
theorem C7_binder_contract :
    (build_tests_from_config [] InstructionSet.AVX2 =
      [⟨"anti_patterns", 8, 34, .avx2_anti_patterns, 1⟩,
       ⟨"basic_tests", 4, 6, .avx2_basic_tests, 1⟩,
       ⟨"checkerboard", 4, 1, .avx2_checkerboard, 8⟩,
       ⟨"inverse_data_patterns", 4, 14, .avx2_inverse_data_patterns, 1⟩,
       ⟨"moving_inversions_left_16", 4, 16, .avx2_moving_inversions_left_16, 1⟩,
       ⟨"moving_inversions_left_4", 4, 4, .avx2_moving_inversions_left_4, 1⟩,
       ⟨"moving_inversions_left_64", 4, 64, .avx2_moving_inversions_left_64, 1⟩,
       ⟨"moving_inversions_right_32", 4, 32, .avx2_moving_inversions_right_32, 1⟩,
       ⟨"moving_inversions_right_8", 4, 8, .avx2_moving_inversions_right_8, 1⟩,
       ⟨"moving_saturations_left_8", 8, 8, .avx2_moving_saturations_left_8, 1⟩,
       ⟨"moving_saturations_right_16", 8, 16, .avx2_moving_saturations_right_16, 1⟩,
       ⟨"random_inversions", 4, 16, .avx2_random_inversions, 1⟩,
       ⟨"walking0", 4, 64, .avx2_walking_0, 1⟩,
       ⟨"walking1", 4, 64, .avx2_walking_1, 1⟩]) ∧
    (build_tests_from_config [] InstructionSet.AVX512 =
      [⟨"anti_patterns", 8, 34, .avx512_anti_patterns, 1⟩,
       ⟨"basic_tests", 4, 6, .avx512_basic_tests, 1⟩,
       ⟨"checkerboard", 4, 1, .avx512_checkerboard, 8⟩,
       ⟨"inverse_data_patterns", 4, 14, .avx512_inverse_data_patterns, 1⟩,
       ⟨"moving_inversions_left_16", 4, 16, .avx512_moving_inversions_left_16, 1⟩,
       ⟨"moving_inversions_left_4", 4, 4, .avx512_moving_inversions_left_4, 1⟩,
       ⟨"moving_inversions_left_64", 4, 64, .avx512_moving_inversions_left_64, 1⟩,
       ⟨"moving_inversions_right_32", 4, 32, .avx512_moving_inversions_right_32, 1⟩,
       ⟨"moving_inversions_right_8", 4, 8, .avx512_moving_inversions_right_8, 1⟩,
       ⟨"moving_saturations_left_8", 8, 8, .avx512_moving_saturations_left_8, 1⟩,
       ⟨"moving_saturations_right_16", 8, 16, .avx512_moving_saturations_right_16, 1⟩,
       ⟨"random_inversions", 4, 16, .avx512_random_inversions, 1⟩,
       ⟨"walking0", 4, 64, .avx512_walking_0, 1⟩,
       ⟨"walking1", 4, 64, .avx512_walking_1, 1⟩]) ∧
    (∀ entries : List TestConfigEntry, entries ≠ [] →
      build_tests_from_config entries InstructionSet.AVX2 =
        spec_binder_select avx2_catalog entries ∧
      build_tests_from_config entries InstructionSet.AVX512 =
        spec_binder_select avx512_catalog entries) ∧
    build_tests_from_config
      [⟨.Walking1, none⟩, ⟨.Checkerboard, some 0⟩, ⟨.BasicTests, some 3⟩]
      InstructionSet.AVX2 =
      [⟨"walking1", 4, 64, .avx2_walking_1, 1⟩,
       ⟨"checkerboard", 4, 1, .avx2_checkerboard, 0⟩,
       ⟨"basic_tests", 4, 6, .avx2_basic_tests, 3⟩] := by
  refine ⟨by decide, by decide, ?_, by decide⟩
  intro entries h
  exact ⟨build_nonempty_avx2 entries h, build_nonempty_avx512 entries h⟩

/-- Witness for C7's non-empty part at the one-element list `[walking1]`. -/
theorem C7_binder_contract_witness :
    ([(⟨.Walking1, none⟩ : TestConfigEntry)] ≠ []) ∧
    build_tests_from_config [⟨.Walking1, none⟩] InstructionSet.AVX2 =
      spec_binder_select avx2_catalog [⟨.Walking1, none⟩] :=
  ⟨by decide, (C7_binder_contract.2.2.1 [⟨.Walking1, none⟩] (by decide)).1⟩

/-! ## C9 -/

/-- C9: duplicate `TestKind`s in the user selection are preserved —
`build_tests_from_config` returns one `TestDefinition` per occurrence
(for any non-empty selection the output length equals the input length,
each occurrence carrying its own loops override or the catalog default),
the run loop's per-iteration schedule invokes the kernel once per
occurrence times its loops, and each occurrence contributes separately to
the bandwidth sum `Σ passes·iters·loops`. -/
theorem C9_duplicate_selection_preserved :
    (∀ entries : List TestConfigEntry, entries ≠ [] →
      (build_tests_from_config entries InstructionSet.AVX2).length =
        entries.length ∧
      (build_tests_from_config entries InstructionSet.AVX512).length =
        entries.length) ∧
    build_tests_from_config [⟨.Walking1, some 2⟩, ⟨.Walking1, none⟩]
        InstructionSet.AVX2 =
      [⟨"walking1", 4, 64, .avx2_walking_1, 2⟩,
       ⟨"walking1", 4, 64, .avx2_walking_1, 1⟩] ∧
    iterationSchedule (build_tests_from_config
        [⟨.Walking1, some 2⟩, ⟨.Walking1, none⟩] InstructionSet.AVX2) =
      [.avx2_walking_1, .avx2_walking_1, .avx2_walking_1] ∧
    total_passes (build_tests_from_config
        [⟨.Walking1, some 2⟩, ⟨.Walking1, none⟩] InstructionSet.AVX2) =
      4 * 64 * 2 + 4 * 64 * 1 := by
  refine ⟨?_, by decide, by decide, by decide⟩
  intro entries h
  rw [build_nonempty_avx2 entries h, build_nonempty_avx512 entries h]
  constructor
  · simp [spec_binder_select]
  · simp [spec_binder_select]

/-- Witness for C9's length part at a duplicated two-element selection. -/
theorem C9_duplicate_selection_preserved_witness :
    ([(⟨.Walking1, some 2⟩ : TestConfigEntry), ⟨.Walking1, none⟩] ≠ []) ∧
    (build_tests_from_config [⟨.Walking1, some 2⟩, ⟨.Walking1, none⟩]
      InstructionSet.AVX2).length = 2 :=
  ⟨by decide, (C9_duplicate_selection_preserved.1
    [⟨.Walking1, some 2⟩, ⟨.Walking1, none⟩] (by decide)).1⟩

/-! ## C8 -/

/-- C8: the buffer acquirer rounds the request down to a multiple of the
alignment `A = cpu_count × page_size` (first conjunct), attempts the
backoff sizes which decrease by exactly 256 MiB from one failed attempt
to the next (the `Chain'` conjunct), and fails with `NoMemoryPinned`
(`none`) precisely when every attempted size — down to where the next
decrement would reach zero — fails to allocate-and-pin (the `iff`
conjunct).  In particular a request of zero or smaller than one alignment
unit rounds to zero, leaves no attemptable size, and always fails
(second conjunct). -/
theorem C8_acquirer_backoff (allocOk pinOk : Nat → Bool)
    (ramBytes alignment : Nat) (_hal : 0 < alignment) :
    (ramBytes - ramBytes % alignment) % alignment = 0 ∧
    (ramBytes < alignment →
      acquire_buffer allocOk pinOk ramBytes alignment = none) ∧
    List.Chain' (fun a b => a = b + BACKOFF)
      (attemptSizes (ramBytes - ramBytes % alignment)) ∧
    (acquire_buffer allocOk pinOk ramBytes alignment = none ↔
      ∀ s ∈ attemptSizes (ramBytes - ramBytes % alignment),
        (allocOk s && pinOk s) = false) := by
  refine ⟨?_, ?_, ?_, ?_⟩
  · have hdm := Nat.div_add_mod ramBytes alignment
    have hsub : ramBytes - ramBytes % alignment =
        alignment * (ramBytes / alignment) := by omega
    rw [hsub]
    exact Nat.mul_mod_right _ _
  · intro hlt
    unfold acquire_buffer
    rw [Nat.mod_eq_of_lt hlt, Nat.sub_self]
    rfl
  · have hchain : List.Chain' (fun a b => a = b + BACKOFF)
        ((List.range ((ramBytes - ramBytes % alignment) / BACKOFF + 1)).map
          (fun i => (ramBytes - ramBytes % alignment) - i * BACKOFF)) := by
      rw [List.chain'_map]
      rw [List.chain'_range_succ]
      intro i hi
      simp only [Nat.succ_eq_add_one]
      have h2 : (i + 1) * BACKOFF ≤
          ((ramBytes - ramBytes % alignment) / BACKOFF) * BACKOFF :=
        Nat.mul_le_mul_right _ (by omega)
      have h3 : ((ramBytes - ramBytes % alignment) / BACKOFF) * BACKOFF ≤
          ramBytes - ramBytes % alignment := Nat.div_mul_le_self _ _
      have h4 : (i + 1) * BACKOFF = i * BACKOFF + BACKOFF := by ring
      omega
    exact hchain.prefix (List.takeWhile_prefix _)
  · unfold acquire_buffer
    rw [List.find?_eq_none]
    constructor
    · intro hall s hs
      have := hall s hs
      simpa using this
    · intro hall s hs
      simp [hall s hs]

/-- Witness for C8: an 8-byte alignment with a 5-byte request (smaller
than one alignment unit) always fails with `NoMemoryPinned`, even when
allocation and pinning would succeed at every size. -/
theorem C8_acquirer_backoff_witness :
    0 < 8 ∧ (5 < 8 ∧
      acquire_buffer (fun _ => true) (fun _ => true) 5 8 = none) :=
  ⟨by decide, by decide,
    (C8_acquirer_backoff (fun _ => true) (fun _ => true) 5 8 (by decide)).2.1
      (by decide)⟩
